import Mathlib

/-!
Verification development for the CI-generator MCP server.

The repository holds two Python variants of the same pipeline:
* `src/main.py` — inline-generation variant: `detect_language`,
  `generate_ci_yaml`, `commit_ci_yaml`, and the `/generate_ci` endpoint
  core `generate_ci`.
* `src/app/main.py` — template-copy variant: `detect_language_from_repo`
  and `copy_workflow_from_reference`.

Python strings are modelled as `List Char` (with `String` at the outer
boundary), the GitHub content API as an explicit `Repo` state (files keyed
by path, plus a set of paths whose reads raise non-not-found errors), and
Python exceptions as `Option`/`Except` results.
-/

/-- Python `str.lower`, character-wise. -/
def lowerL (l : List Char) : List Char := l.map Char.toLower

/-- Python `str.strip`: drop whitespace from both ends. -/
def stripL (l : List Char) : List Char :=
  ((l.dropWhile Char.isWhitespace).reverse.dropWhile Char.isWhitespace).reverse

/-- Python `needle in hay` on strings: substring containment. -/
def pyIn (needle hay : List Char) : Bool := decide (needle <:+: hay)

/-- Python `str.startswith`. -/
def pyStartsWith (p l : List Char) : Bool := decide (p <+: l)

/-- Python `str.endswith`. -/
def pyEndsWith (p l : List Char) : Bool := decide (p <:+ l)

/-- Helper for `pySplitLines`: accumulates the current line in reverse.
A `"\r\n"` pair counts as a single line boundary, and a boundary that ends
the text produces no trailing empty line, matching Python `str.splitlines`. -/
def pySplitLinesAux : List Char → List Char → List (List Char)
  | acc, [] => [acc.reverse]
  | acc, '\r' :: '\n' :: rest =>
      acc.reverse :: (if rest.isEmpty then [] else pySplitLinesAux [] rest)
  | acc, '\n' :: rest =>
      acc.reverse :: (if rest.isEmpty then [] else pySplitLinesAux [] rest)
  | acc, '\r' :: rest =>
      acc.reverse :: (if rest.isEmpty then [] else pySplitLinesAux [] rest)
  | acc, c :: rest => pySplitLinesAux (c :: acc) rest

/-- Python `str.splitlines` (restricted to the `\n`, `\r`, `\r\n`
line boundaries, the ones relevant to build-descriptor texts). -/
def pySplitLines (s : List Char) : List (List Char) :=
  if s.isEmpty then [] else pySplitLinesAux [] s

/-- The normalisation `line.strip().lower()` applied to each scanned line
in `detect_language` (src/main.py line 29). -/
def normLine (l : List Char) : List Char := lowerL (stripL l)

/-- The cascade of substring checks inside the `FROM`-branch of
`detect_language` (src/main.py lines 31-42); `none` means the line matched
no keyword and the loop continues. -/
def keywordHit (line : List Char) : Option String :=
  if pyIn "python".data line then some "python"
  else if pyIn "node".data line then some "node"
  else if pyIn "openjdk".data line || pyIn "maven".data line then some "java-maven"
  else if pyIn "gradle".data line then some "java-gradle"
  else if pyIn "golang".data line then some "go"
  else if pyIn "ruby".data line then some "ruby"
  else none

/-- The line loop of `detect_language` (src/main.py lines 28-43). -/
def detectLoop : List (List Char) → String
  | [] => "unknown"
  | l :: ls =>
    let line := normLine l
    if pyStartsWith "from".data line then
      match keywordHit line with
      | some tag => tag
      | none => detectLoop ls
    else detectLoop ls

/-- `detect_language` from src/main.py (lines 25-43): scan the Dockerfile
text line by line; on each stripped, lower-cased line beginning with
`from`, apply the keyword cascade; return `"unknown"` when no line hits. -/
def detect_language (dockerfile : String) : String :=
  detectLoop (pySplitLines dockerfile.data)

/-- A file stored in a repository: its decoded text content and its
identity token (the blob sha used by the content API as the optimistic
concurrency precondition), modelled as a version counter. -/
structure FileEntry where
  content : String
  sha : Nat
deriving DecidableEq, Repr

/-- Errors raised by the collaborator `get_contents` operation.
`notFound` is a missing path; `accessError` stands for every other read
failure (decode failure, permission, network), which the Python code
catches with the same bare `except`. -/
inductive GhError where
  | notFound
  | accessError
deriving DecidableEq, Repr

/-- A repository as seen through the hosting platform's content API on the
configured branch: files keyed by path, plus the paths whose reads raise a
non-not-found error. Commit messages and the fixed `main` branch do not
affect file state and are not part of the model. -/
structure Repo where
  files : List (String × FileEntry)
  broken : List String
deriving DecidableEq, Repr

/-- Collaborator `repo.get_contents(path)`: raises (returns `.error`) when
the path is broken or absent, otherwise yields the file. -/
def get_contents (r : Repo) (path : String) : Except GhError FileEntry :=
  if path ∈ r.broken then .error .accessError
  else match r.files.lookup path with
    | some e => .ok e
    | none => .error .notFound

/-- Replace the entry at `path` (first occurrence) with `e`. -/
def setFile : List (String × FileEntry) → String → FileEntry → List (String × FileEntry)
  | [], _, _ => []
  | (p, old) :: rest, path, e =>
      if p = path then (p, e) :: rest else (p, old) :: setFile rest path e

/-- Collaborator `repo.create_file(path, message, content, branch)`:
fails (raises) when a file already exists at `path`; a created file starts
at identity token 0. -/
def create_file (r : Repo) (path content : String) : Option Repo :=
  match r.files.lookup path with
  | some _ => none
  | none => some { r with files := (path, ⟨content, 0⟩) :: r.files }

/-- Collaborator `repo.update_file(path, message, content, sha, branch)`:
succeeds only when a file exists at `path` and the supplied identity token
matches its current one (optimistic concurrency); the stored file then
gets fresh identity `sha + 1`. -/
def update_file (r : Repo) (path content : String) (sha : Nat) : Option Repo :=
  match r.files.lookup path with
  | some e =>
      if e.sha = sha then some { r with files := setFile r.files path ⟨content, e.sha + 1⟩ }
      else none
  | none => none

/-- The `try` block of `detect_language_from_repo` (src/app/main.py lines
23-30): keyword cascade over the decoded Dockerfile text as a whole;
`none` means no branch returned and control falls through to the
extension fallback. -/
def detectFromDockerfileApp (dockerfile : String) : Option String :=
  let d := lowerL dockerfile.data
  if pyIn "python".data d then some "python"
  else if pyIn "node".data d then some "node"
  else if pyIn "java".data d || pyIn "openjdk".data d then some "java"
  else if pyIn "go".data d then some "go"
  else none

/-- The extension fallback of `detect_language_from_repo` (src/app/main.py
lines 35-45), over the listed entry names. -/
def detectFromExtensions (names : List String) : String :=
  if names.any (fun f => pyEndsWith ".py".data f.data) then "python"
  else if names.any (fun f => pyEndsWith "package.json".data f.data) then "node"
  else if names.any (fun f => pyEndsWith "pom.xml".data f.data || pyEndsWith ".java".data f.data) then "java"
  else if names.any (fun f => pyEndsWith ".go".data f.data) then "go"
  else "default"

/-- Collaborator `repo.get_contents("")`: the names of the listed entries.
The modelled repositories keep their files keyed by path, so the listing
is the list of paths. -/
def rootEntries (r : Repo) : List String := r.files.map Prod.fst

/-- `detect_language_from_repo` from src/app/main.py (lines 20-45): try the
Dockerfile keyword scan; on a read failure (bare `except: pass`) or when no
keyword matches, fall back to the root-listing extension scan. -/
def detect_language_from_repo (r : Repo) : String :=
  match get_contents r "Dockerfile" with
  | .ok e =>
    match detectFromDockerfileApp e.content with
    | some tag => tag
    | none => detectFromExtensions (rootEntries r)
  | .error _ => detectFromExtensions (rootEntries r)

/-- `generate_ci_yaml` from src/main.py (lines 46-116): fixed YAML text per
known tag; any other tag yields the unknown-language comment line. -/
def generate_ci_yaml (language : String) : String :=
  if language = "python" then
    "\nname: Python CI\non: [push, pull_request]\njobs:\n  build:\n    runs-on: ubuntu-latest\n    steps:\n      - uses: actions/checkout@v3\n      - name: Set up Python\n        uses: actions/setup-python@v4\n        with:\n          python-version: \x273.9\x27\n      - name: Install dependencies\n        run: |\n          python -m pip install --upgrade pip\n          pip install -r requirements.txt\n      - name: Run tests\n        run: pytest || echo \"⚠️ No tests found\"\n"
  else if language = "node" then
    "\nname: Node.js CI\non: [push, pull_request]\njobs:\n  build:\n    runs-on: ubuntu-latest\n    steps:\n      - uses: actions/checkout@v3\n      - uses: actions/setup-node@v4\n        with:\n          node-version: \x2718\x27\n      - run: npm install\n      - run: npm test\n"
  else if language = "java-maven" then
    "\nname: Java Maven CI\non: [push, pull_request]\njobs:\n  build:\n    runs-on: ubuntu-latest\n    steps:\n      - uses: actions/checkout@v3\n      - name: Set up JDK\n        uses: actions/setup-java@v3\n        with:\n          java-version: \x2717\x27\n      - name: Build with Maven\n        run: mvn -B package --file pom.xml\n"
  else if language = "java-gradle" then
    "\nname: Java Gradle CI\non: [push, pull_request]\njobs:\n  build:\n    runs-on: ubuntu-latest\n    steps:\n      - uses: actions/checkout@v3\n      - name: Set up JDK\n        uses: actions/setup-java@v3\n        with:\n          java-version: \x2717\x27\n      - name: Build with Gradle\n        run: ./gradlew build\n"
  else
    "# Unknown language: " ++ language

/-- The destination path `.github/workflows/{language}-ci.yml` used by
`commit_ci_yaml` (src/main.py line 121). -/
def ciPath (language : String) : String :=
  ".github/workflows/" ++ language ++ "-ci.yml"

/-- The `except` branch of `commit_ci_yaml` (src/main.py lines 128-130):
attempt a create; a create failure is an uncaught exception, so the whole
call fails (`none`). -/
def commit_create_branch (sWrite : Repo) (path yaml_content : String) : Option (Repo × String) :=
  match create_file sWrite path yaml_content with
  | some r2 => some (r2, "✅ Created " ++ path)
  | none => none

/-- `commit_ci_yaml` from src/main.py (lines 119-130), generalised to name
the repository state at each of its two collaborator calls: `sRead` is the
state `get_contents` observes, `sWrite` the state `update_file` /
`create_file` act on. A concurrent writer between the two calls is
modelled by `sRead ≠ sWrite`; the sequential run is `sRead = sWrite`.
The bare `except` turns any read or update failure into a create attempt. -/
def commit_ci_yaml_rw (sRead sWrite : Repo) (language yaml_content : String) : Option (Repo × String) :=
  let path := ciPath language
  match get_contents sRead path with
  | .ok contents =>
    match update_file sWrite path yaml_content contents.sha with
    | some r2 => some (r2, "✅ Updated " ++ path)
    | none => commit_create_branch sWrite path yaml_content
  | .error _ => commit_create_branch sWrite path yaml_content

/-- `commit_ci_yaml` in its sequential reading: both collaborator calls see
the same repository state. -/
def commit_ci_yaml (repo : Repo) (language yaml_content : String) : Option (Repo × String) :=
  commit_ci_yaml_rw repo repo language yaml_content

/-- `get_dockerfile_content` from src/main.py (lines 15-22): any exception
(missing file, decode failure, access error) becomes `None`. -/
def get_dockerfile_content (repo : Repo) : Option String :=
  match get_contents repo "Dockerfile" with
  | .ok e => some e.content
  | .error _ => none

/-- The JSON response of the `/generate_ci` endpoint: either the success
payload `{language_detected, commit_status}` or an error string with its
HTTP status code. -/
inductive CiResponse where
  | ok (language_detected commit_status : String)
  | errorResp (error : String) (status : Nat)
deriving DecidableEq, Repr

/-- The core of the `/generate_ci` handler `generate_ci` (src/main.py lines
155-172), after request parsing and client construction: read the
Dockerfile (a falsy result — `None` or empty text — yields the 404
response), then detect, generate and commit; an exception escaping
`commit_ci_yaml` is caught by the outer `except` as a 500 response, whose
`str(e)` text is abstracted as a constant. -/
def generate_ci (repo : Repo) : CiResponse × Repo :=
  match get_dockerfile_content repo with
  | none => (CiResponse.errorResp "Dockerfile not found in repo" 404, repo)
  | some dockerfile =>
    if dockerfile = "" then (CiResponse.errorResp "Dockerfile not found in repo" 404, repo)
    else
      let language := detect_language dockerfile
      let ci_yaml := generate_ci_yaml language
      match commit_ci_yaml repo language ci_yaml with
      | some (repo2, commit_msg) => (CiResponse.ok language commit_msg, repo2)
      | none => (CiResponse.errorResp "internal error" 500, repo)

/-- `filename_map` from src/app/main.py (lines 65-71). -/
def filename_map : List (String × String) :=
  [("python", "python-ci.yml"), ("node", "node-ci.yml"), ("java", "java-ci.yml"),
   ("go", "go-ci.yml"), ("default", "default-ci.yml")]

/-- `filename_map.get(language, "default-ci.yml")` (src/app/main.py line 72). -/
def workflow_file_for (language : String) : String :=
  (filename_map.lookup language).getD "default-ci.yml"

/-- Rendering of the exception text interpolated into the template-copy
failure messages; the concrete PyGithub text is irrelevant to the claims
and abstracted per error kind. -/
def gh_err_text : GhError → String
  | .notFound => "404 not found"
  | .accessError => "access error"

/-- Abstraction of the PyGithub exception text for a rejected create. -/
def create_err_text : String := "422 file already exists"

/-- The template-fetch step of `copy_workflow_from_reference`
(src/app/main.py lines 72-78): map the tag to its workflow filename and
read it from the reference repository; a failed read yields the error
message naming the missing file and the reference repository. -/
def resolve_template (reference : Repo) (reference_repo_name language : String) : Except String String :=
  let workflow_file := workflow_file_for language
  match get_contents reference (".github/workflows/" ++ workflow_file) with
  | .ok f => .ok f.content
  | .error e =>
      .error ("❌ Could not find " ++ workflow_file ++ " in " ++ reference_repo_name
        ++ ": " ++ gh_err_text e)

/-- `copy_workflow_from_reference` from src/app/main.py (lines 51-90):
detect the current repository's language, fetch the mapped template from
the reference repository, and create `.github/workflows/ci.yml` in the
current repository; returns the tool's message together with the resulting
current-repository state. -/
def copy_workflow_from_reference (current : Repo) (current_repo_name : String)
    (reference : Repo) (reference_repo_name : String) : String × Repo :=
  let language := detect_language_from_repo current
  match resolve_template reference reference_repo_name language with
  | .error msg => (msg, current)
  | .ok workflow_content =>
    match create_file current ".github/workflows/ci.yml" workflow_content with
    | some current2 =>
        ("✅ Workflow for " ++ language ++ " copied from " ++ reference_repo_name
          ++ " to " ++ current_repo_name, current2)
    | none => ("❌ Failed to add workflow: " ++ create_err_text, current)

/-- The keyword cascade iterated over a list of already-normalised lines;
`detectLoop` factors through it on the sublist of `from`-prefixed lines. -/
def detectKeyLoop : List (List Char) → String
  | [] => "unknown"
  | l :: ls =>
    match keywordHit l with
    | some tag => tag
    | none => detectKeyLoop ls

/-- The normalised `FROM` lines of a build-descriptor text: exactly the
lines `detect_language` ever applies the keyword cascade to. -/
def fromLinesOf (d : String) : List (List Char) :=
  ((pySplitLines d.data).map normLine).filter (fun l => pyStartsWith "from".data l)

/-- Decidable equality of `get_contents` results, used to evaluate the
model on concrete repositories. -/
instance : DecidableEq (Except GhError FileEntry)
  | .ok x, .ok y =>
      if h : x = y then .isTrue (congrArg Except.ok h)
      else .isFalse fun hh => h (Except.ok.inj hh)
  | .error x, .error y =>
      if h : x = y then .isTrue (congrArg Except.error h)
      else .isFalse fun hh => h (Except.error.inj hh)
  | .ok _, .error _ => .isFalse fun hh => Except.noConfusion hh
  | .error _, .ok _ => .isFalse fun hh => Except.noConfusion hh

/-! Helper lemmas. -/

theorem pyIn_iff {needle hay : List Char} : pyIn needle hay = true ↔ needle <:+: hay := by
  simp [pyIn]

theorem pyStartsWith_iff {p l : List Char} : pyStartsWith p l = true ↔ p <+: l := by
  simp [pyStartsWith]

theorem detectLoop_eq_detectKeyLoop (ls : List (List Char)) :
    detectLoop ls = detectKeyLoop ((ls.map normLine).filter (fun l => pyStartsWith "from".data l)) := by
  induction ls with
  | nil => rfl
  | cons l ls ih =>
    simp only [detectLoop, List.map_cons, List.filter_cons]
    by_cases h : pyStartsWith "from".data (normLine l) = true
    · simp only [h, if_true]
      cases hk : keywordHit (normLine l) with
      | some tag => simp [detectKeyLoop, hk]
      | none => simp [detectKeyLoop, hk, ih]
    · simp only [Bool.not_eq_true] at h
      simp [h, ih]

theorem detect_language_eq_keyLoop (d : String) :
    detect_language d = detectKeyLoop (fromLinesOf d) :=
  detectLoop_eq_detectKeyLoop _

theorem pySplitLinesAux_mem_infix (l : List Char) :
    ∀ (acc s : List Char), l ∈ pySplitLinesAux acc s → l <:+: (acc.reverse ++ s) := by
  intro acc s
  induction acc, s using pySplitLinesAux.induct with
  | case1 acc =>
    intro h
    rw [pySplitLinesAux.eq_1] at h
    simp only [List.mem_singleton] at h
    subst h
    simp
  | case2 acc rest ih =>
    intro h
    rw [pySplitLinesAux.eq_2] at h
    rcases List.mem_cons.mp h with h | h
    · subst h
      exact (List.prefix_append _ _).isInfix
    · by_cases he : rest.isEmpty
      · simp [he] at h
      · rw [if_neg (by simp [he])] at h
        have hi := ih h
        simp only [List.reverse_nil, List.nil_append] at hi
        exact hi.trans ⟨acc.reverse ++ ['\r', '\n'], [], by simp⟩
  | case3 acc rest ih =>
    intro h
    rw [pySplitLinesAux.eq_3] at h
    rcases List.mem_cons.mp h with h | h
    · subst h
      exact (List.prefix_append _ _).isInfix
    · by_cases he : rest.isEmpty
      · simp [he] at h
      · rw [if_neg (by simp [he])] at h
        have hi := ih h
        simp only [List.reverse_nil, List.nil_append] at hi
        exact hi.trans ⟨acc.reverse ++ ['\n'], [], by simp⟩
  | case4 acc rest hne ih =>
    intro h
    rw [pySplitLinesAux.eq_4 acc rest hne] at h
    rcases List.mem_cons.mp h with h | h
    · subst h
      exact (List.prefix_append _ _).isInfix
    · by_cases he : rest.isEmpty
      · simp [he] at h
      · rw [if_neg (by simp [he])] at h
        have hi := ih h
        simp only [List.reverse_nil, List.nil_append] at hi
        exact hi.trans ⟨acc.reverse ++ ['\r'], [], by simp⟩
  | case5 acc c rest h1 h2 h3 ih =>
    intro h
    rw [pySplitLinesAux.eq_5 acc c rest h1 h2 h3] at h
    have hi := ih h
    simpa [List.append_assoc] using hi

theorem line_infix_of_mem_pySplitLines {s l : List Char} (h : l ∈ pySplitLines s) : l <:+: s := by
  unfold pySplitLines at h
  by_cases he : s.isEmpty
  · simp [he] at h
  · rw [if_neg (by simp [he])] at h
    simpa using pySplitLinesAux_mem_infix l [] s h

theorem stripL_infix_self (l : List Char) : stripL l <:+: l := by
  have h1 : l.dropWhile Char.isWhitespace <:+ l := List.dropWhile_suffix _
  have h2 : (l.dropWhile Char.isWhitespace).reverse.dropWhile Char.isWhitespace <:+
      (l.dropWhile Char.isWhitespace).reverse := List.dropWhile_suffix _
  have h3 : stripL l <+: l.dropWhile Char.isWhitespace := by
    unfold stripL
    have := List.reverse_prefix.mpr h2
    simpa using this
  exact h3.isInfix.trans h1.isInfix

theorem normLine_infix_lower (l : List Char) : normLine l <:+: lowerL l :=
  List.IsInfix.map _ (stripL_infix_self l)

theorem detectKeyLoop_append_none (ls rest : List (List Char))
    (h : ∀ l ∈ ls, keywordHit l = none) :
    detectKeyLoop (ls ++ rest) = detectKeyLoop rest := by
  induction ls with
  | nil => rfl
  | cons l ls ih =>
    have hl : keywordHit l = none := h l (List.mem_cons_self _ _)
    simp only [List.cons_append, detectKeyLoop, hl]
    exact ih fun x hx => h x (List.mem_cons_of_mem _ hx)

theorem keywordHit_python {l : List Char} (h : pyIn "python".data l = true) :
    keywordHit l = some "python" := by
  simp [keywordHit, h]

theorem lookup_setFile (path : String) (ne : FileEntry) :
    ∀ (files : List (String × FileEntry)) (e : FileEntry),
      files.lookup path = some e → (setFile files path ne).lookup path = some ne := by
  intro files
  induction files with
  | nil => intro e h; simp [List.lookup] at h
  | cons pe rest ih =>
    intro e h
    obtain ⟨p, old⟩ := pe
    by_cases hp : p = path
    · subst hp
      simp [setFile, List.lookup]
    · have hpb : (path == p) = false := by
        simp only [beq_eq_false_iff_ne, ne_eq]
        exact fun hh => hp hh.symm
      simp only [List.lookup, hpb] at h
      simp only [setFile, if_neg hp, List.lookup, hpb]
      exact ih e h

/-! Claims. -/

/-- C1 (counterexample): the template-copy detector
`detect_language_from_repo` does not restrict its keyword scan to `FROM`
lines. Two build descriptors with identical (empty) normalised `FROM`-line
lists give different detection results, because the keyword `python`
occurs in a `RUN` line of the first. -/
theorem claim_C1_counterexample :
    fromLinesOf "RUN python" = fromLinesOf "RUN rustc" ∧
      detect_language_from_repo ⟨[("Dockerfile", ⟨"RUN python", 0⟩)], []⟩ = "python" ∧
      detect_language_from_repo ⟨[("Dockerfile", ⟨"RUN rustc", 0⟩)], []⟩ = "default" := by
  decide

/-- C1 (amended): for the inline-generation detector `detect_language` the
claim holds — the result depends only on the normalised lines beginning
with `from`: any two build-descriptor texts with the same `FROM`-line list
detect identically, so a keyword outside a `FROM` line never influences
the returned tag. -/
theorem claim_C1_amended (d₁ d₂ : String) (h : fromLinesOf d₁ = fromLinesOf d₂) :
    detect_language d₁ = detect_language d₂ := by
  rw [detect_language_eq_keyLoop, detect_language_eq_keyLoop, h]

/-- C1 witness: two distinct texts with the same `FROM` lines. -/
theorem claim_C1_witness :
    detect_language "FROM python:3\nRUN node" = detect_language "RUN ruby\nFROM python:3" :=
  claim_C1_amended _ _ (by decide)

/-- C2 (counterexample): in the inline-generation variant a failed
Dockerfile read does not proceed to any fallback — `generate_ci` surfaces
it to the caller as a 404 error response. -/
theorem claim_C2_counterexample :
    generate_ci ⟨[], []⟩ =
      (CiResponse.errorResp "Dockerfile not found in repo" 404, ⟨[], []⟩) := by
  decide

/-- C2 (amended): in the template-copy variant the claim holds — whenever
the Dockerfile read fails with any error, `detect_language_from_repo`
proceeds to the root-listing extension fallback and returns a tag; the
read failure is never surfaced. -/
theorem claim_C2_amended (r : Repo) (e : GhError)
    (h : get_contents r "Dockerfile" = .error e) :
    detect_language_from_repo r = detectFromExtensions (rootEntries r) := by
  unfold detect_language_from_repo
  rw [h]

/-- C2 witness: a repository whose Dockerfile read raises an access error. -/
theorem claim_C2_witness :
    detect_language_from_repo ⟨[("main.py", ⟨"", 0⟩)], ["Dockerfile"]⟩ =
      detectFromExtensions (rootEntries ⟨[("main.py", ⟨"", 0⟩)], ["Dockerfile"]⟩) :=
  claim_C2_amended _ .accessError (by decide)

/-- C7: `generate_ci_yaml` maps every tag outside its four known languages
to the unknown-language comment line naming that tag; being a total
function it never fails. -/
theorem claim_C7 (language : String)
    (h : language ≠ "python" ∧ language ≠ "node" ∧
      language ≠ "java-maven" ∧ language ≠ "java-gradle") :
    generate_ci_yaml language = "# Unknown language: " ++ language := by
  obtain ⟨h1, h2, h3, h4⟩ := h
  simp [generate_ci_yaml, h1, h2, h3, h4]

/-- C7 witness: the tag `go`, which `detect_language` can produce but
`generate_ci_yaml` has no branch for. -/
theorem claim_C7_witness :
    generate_ci_yaml "go" = "# Unknown language: go" :=
  claim_C7 "go" (by decide)

/-- C8: both workflow-resolver strategies are deterministic — two calls
with the same tag (and, for template copy, the same reference-repository
state) return byte-identical pipeline text. -/
theorem claim_C8 (t₁ t₂ : String) (ref₁ ref₂ : Repo) (nm : String)
    (ht : t₁ = t₂) (hr : ref₁ = ref₂) :
    generate_ci_yaml t₁ = generate_ci_yaml t₂ ∧
      resolve_template ref₁ nm t₁ = resolve_template ref₂ nm t₂ := by
  subst ht
  subst hr
  exact ⟨rfl, rfl⟩

/-- C8 witness: the python tag against a concrete reference repository. -/
theorem claim_C8_witness :
    generate_ci_yaml "python" = generate_ci_yaml "python" ∧
      resolve_template ⟨[(".github/workflows/python-ci.yml", ⟨"PY", 0⟩)], []⟩ "o/ref" "python" =
        resolve_template ⟨[(".github/workflows/python-ci.yml", ⟨"PY", 0⟩)], []⟩ "o/ref" "python" :=
  claim_C8 "python" "python" _ _ "o/ref" rfl rfl

/-- C9: in `commit_ci_yaml` the bare `except` turns every failure of the
existence-check read (not-found or otherwise) and every rejected update
into a create attempt at the destination path — a rejected update is never
propagated as an update failure. -/
theorem claim_C9 (sR sW : Repo) (language yaml : String)
    (h : (∃ e, get_contents sR (ciPath language) = .error e) ∨
      (∃ c, get_contents sR (ciPath language) = .ok c ∧
        update_file sW (ciPath language) yaml c.sha = none)) :
    commit_ci_yaml_rw sR sW language yaml =
      commit_create_branch sW (ciPath language) yaml := by
  rcases h with ⟨e, he⟩ | ⟨c, hc, hu⟩
  · simp only [commit_ci_yaml_rw]
    rw [he]
  · simp only [commit_ci_yaml_rw]
    rw [hc]
    simp only [hu]

/-- C9 witness: an update rejected by a stale identity token (the file
advanced from token 0 to token 1 between the read and the write) leads to
the create attempt. -/
theorem claim_C9_witness :
    commit_ci_yaml_rw ⟨[(".github/workflows/python-ci.yml", ⟨"old", 0⟩)], []⟩
        ⟨[(".github/workflows/python-ci.yml", ⟨"new", 1⟩)], []⟩ "python" "Y" =
      commit_create_branch ⟨[(".github/workflows/python-ci.yml", ⟨"new", 1⟩)], []⟩
        (ciPath "python") "Y" :=
  claim_C9 _ _ "python" "Y" (Or.inr ⟨⟨"old", 0⟩, by decide, by decide⟩)

/-- C3 (counterexample): the template-copy write-back
`copy_workflow_from_reference` never updates. With a file already present
at the destination path `.github/workflows/ci.yml`, the call reports a
create failure instead of an `updated` outcome, leaving the repository
unchanged. -/
theorem claim_C3_counterexample :
    ((⟨[("Dockerfile", ⟨"FROM python:3.9", 0⟩),
        (".github/workflows/ci.yml", ⟨"old", 0⟩)], []⟩ : Repo).files.lookup
          ".github/workflows/ci.yml" = some ⟨"old", 0⟩) ∧
      copy_workflow_from_reference
          ⟨[("Dockerfile", ⟨"FROM python:3.9", 0⟩),
            (".github/workflows/ci.yml", ⟨"old", 0⟩)], []⟩ "o/cur"
          ⟨[(".github/workflows/python-ci.yml", ⟨"PY", 0⟩)], []⟩ "o/ref" =
        ("❌ Failed to add workflow: 422 file already exists",
          ⟨[("Dockerfile", ⟨"FROM python:3.9", 0⟩),
            (".github/workflows/ci.yml", ⟨"old", 0⟩)], []⟩) := by
  decide

/-- C3 (amended): the inline-generation write-back `commit_ci_yaml`
satisfies the claim: with no file at the destination path the outcome is
`created`; with an existing file the outcome is `updated` using that
file's current identity token; and when the token read has gone stale
(the file moved to a different token before the write), the call fails —
the update is rejected and the fallback create is also rejected — rather
than silently overwriting. The template-copy write-back instead always
attempts a create and fails on an existing file. -/
theorem claim_C3_amended (r sW : Repo) (language yaml : String)
    (hb : ciPath language ∉ r.broken) :
    (r.files.lookup (ciPath language) = none →
        commit_ci_yaml r language yaml =
          some (⟨(ciPath language, ⟨yaml, 0⟩) :: r.files, r.broken⟩,
            "✅ Created " ++ ciPath language)) ∧
      (∀ e, r.files.lookup (ciPath language) = some e →
        commit_ci_yaml r language yaml =
          some (⟨setFile r.files (ciPath language) ⟨yaml, e.sha + 1⟩, r.broken⟩,
            "✅ Updated " ++ ciPath language)) ∧
      (∀ e eW, r.files.lookup (ciPath language) = some e →
        sW.files.lookup (ciPath language) = some eW → eW.sha ≠ e.sha →
        commit_ci_yaml_rw r sW language yaml = none) := by
  refine ⟨?_, ?_, ?_⟩
  · intro h
    simp only [commit_ci_yaml, commit_ci_yaml_rw, get_contents, if_neg hb, h,
      commit_create_branch, create_file]
  · intro e h
    simp only [commit_ci_yaml, commit_ci_yaml_rw, get_contents, if_neg hb, h,
      update_file, if_pos rfl]
    simp
  · intro e eW h hW hne
    simp only [commit_ci_yaml_rw, get_contents, if_neg hb, h, update_file, hW,
      if_neg (fun hh => hne hh), commit_create_branch, create_file]

/-- C3 witness: the three outcomes on concrete repositories — create on an
empty repository, update of an existing file at token 3, and failure when
the token went stale between read and write. -/
theorem claim_C3_witness :
    commit_ci_yaml ⟨[], []⟩ "python" "Y" =
        some (⟨[(ciPath "python", ⟨"Y", 0⟩)], []⟩, "✅ Created " ++ ciPath "python") ∧
      commit_ci_yaml ⟨[(ciPath "python", ⟨"old", 3⟩)], []⟩ "python" "Y" =
        some (⟨setFile [(ciPath "python", ⟨"old", 3⟩)] (ciPath "python") ⟨"Y", 3 + 1⟩, []⟩,
          "✅ Updated " ++ ciPath "python") ∧
      commit_ci_yaml_rw ⟨[(ciPath "python", ⟨"old", 3⟩)], []⟩
        ⟨[(ciPath "python", ⟨"mid", 4⟩)], []⟩ "python" "Y" = none := by
  refine ⟨?_, ?_, ?_⟩
  · exact (claim_C3_amended ⟨[], []⟩ ⟨[], []⟩ "python" "Y" (by decide)).1 (by decide)
  · exact (claim_C3_amended ⟨[(ciPath "python", ⟨"old", 3⟩)], []⟩ ⟨[], []⟩ "python" "Y"
      (by decide)).2.1 ⟨"old", 3⟩ (by decide)
  · exact (claim_C3_amended ⟨[(ciPath "python", ⟨"old", 3⟩)], []⟩
      ⟨[(ciPath "python", ⟨"mid", 4⟩)], []⟩ "python" "Y" (by decide)).2.2
      ⟨"old", 3⟩ ⟨"mid", 4⟩ (by decide) (by decide) (by decide)

/-- C6: when the reference repository lacks the workflow file mapped to the
detected tag, `copy_workflow_from_reference` returns a failure message
that names both the missing file and the reference repository, and the
target repository is left unchanged — no write occurs. -/
theorem claim_C6 (cur ref : Repo) (curName refName : String) (e : GhError)
    (h : get_contents ref
        (".github/workflows/" ++ workflow_file_for (detect_language_from_repo cur)) =
        .error e) :
    (workflow_file_for (detect_language_from_repo cur)).data <:+:
        (copy_workflow_from_reference cur curName ref refName).1.data ∧
      refName.data <:+: (copy_workflow_from_reference cur curName ref refName).1.data ∧
      (copy_workflow_from_reference cur curName ref refName).2 = cur := by
  have hres : copy_workflow_from_reference cur curName ref refName =
      ("❌ Could not find " ++ workflow_file_for (detect_language_from_repo cur) ++ " in "
        ++ refName ++ ": " ++ gh_err_text e, cur) := by
    simp only [copy_workflow_from_reference, resolve_template]
    rw [h]
  rw [hres]
  refine ⟨⟨"❌ Could not find ".data, (" in " ++ refName ++ ": " ++ gh_err_text e).data, ?_⟩,
    ⟨("❌ Could not find " ++ workflow_file_for (detect_language_from_repo cur) ++ " in ").data,
      (": " ++ gh_err_text e).data, ?_⟩, rfl⟩
  · simp [List.append_assoc]
  · simp [List.append_assoc]

/-- C6 witness: a python-detected repository against an empty reference
repository, whose `python-ci.yml` read fails with not-found. -/
theorem claim_C6_witness :
    (workflow_file_for (detect_language_from_repo ⟨[("Dockerfile", ⟨"FROM python:3.9", 0⟩)], []⟩)).data <:+:
        (copy_workflow_from_reference ⟨[("Dockerfile", ⟨"FROM python:3.9", 0⟩)], []⟩
          "o/cur" ⟨[], []⟩ "o/ref").1.data ∧
      "o/ref".data <:+: (copy_workflow_from_reference ⟨[("Dockerfile", ⟨"FROM python:3.9", 0⟩)], []⟩
          "o/cur" ⟨[], []⟩ "o/ref").1.data ∧
      (copy_workflow_from_reference ⟨[("Dockerfile", ⟨"FROM python:3.9", 0⟩)], []⟩
          "o/cur" ⟨[], []⟩ "o/ref").2 = ⟨[("Dockerfile", ⟨"FROM python:3.9", 0⟩)], []⟩ :=
  claim_C6 _ _ "o/cur" "o/ref" .notFound (by decide)

/-- C10: when detection yields the unknown tag (and the destination path is
readable), `generate_ci` still commits: the response is a success carrying
the unknown tag, and the resulting repository holds a file at
`.github/workflows/unknown-ci.yml` whose content is exactly the
unknown-language comment line. -/
theorem claim_C10 (r : Repo) (d : String)
    (hd : get_dockerfile_content r = some d) (hne : d ≠ "")
    (hu : detect_language d = "unknown")
    (hb : ciPath "unknown" ∉ r.broken) :
    ∃ (r2 : Repo) (msg : String),
      generate_ci r = (CiResponse.ok "unknown" msg, r2) ∧
        ∃ e : FileEntry, r2.files.lookup (ciPath "unknown") = some e ∧
          e.content = "# Unknown language: unknown" := by
  have hyaml : generate_ci_yaml "unknown" = "# Unknown language: unknown" := by decide
  simp only [generate_ci, hd, if_neg hne, hu, hyaml]
  cases hlook : r.files.lookup (ciPath "unknown") with
  | none =>
    refine ⟨⟨(ciPath "unknown", ⟨"# Unknown language: unknown", 0⟩) :: r.files, r.broken⟩,
      "✅ Created " ++ ciPath "unknown", ?_, ⟨"# Unknown language: unknown", 0⟩, ?_, rfl⟩
    · simp only [commit_ci_yaml, commit_ci_yaml_rw, get_contents, if_neg hb, hlook,
        commit_create_branch, create_file]
    · simp [List.lookup]
  | some e =>
    refine ⟨⟨setFile r.files (ciPath "unknown") ⟨"# Unknown language: unknown", e.sha + 1⟩,
        r.broken⟩, "✅ Updated " ++ ciPath "unknown", ?_,
      ⟨"# Unknown language: unknown", e.sha + 1⟩, ?_, rfl⟩
    · simp only [commit_ci_yaml, commit_ci_yaml_rw, get_contents, if_neg hb, hlook,
        update_file, if_pos rfl]
      simp
    · exact lookup_setFile (ciPath "unknown") _ r.files e hlook

/-- C10 witness: a repository whose Dockerfile is `FROM scratch` — no
keyword matches, the tag is unknown, and the comment-only workflow file is
still committed. -/
theorem claim_C10_witness :
    ∃ (r2 : Repo) (msg : String),
      generate_ci ⟨[("Dockerfile", ⟨"FROM scratch", 0⟩)], []⟩ =
          (CiResponse.ok "unknown" msg, r2) ∧
        ∃ e : FileEntry, r2.files.lookup (ciPath "unknown") = some e ∧
          e.content = "# Unknown language: unknown" :=
  claim_C10 ⟨[("Dockerfile", ⟨"FROM scratch", 0⟩)], []⟩ "FROM scratch"
    (by decide) (by decide) (by decide) (by decide)

/-- A keyword contained in the normalised form of one line of a text is
contained in the lower-cased text itself. -/
theorem infix_lower_of_infix_normLine {kw line s : List Char}
    (h1 : kw <:+: normLine line) (h2 : line ∈ pySplitLines s) :
    kw <:+: lowerL s :=
  (h1.trans (normLine_infix_lower line)).trans
    (List.IsInfix.map _ (line_infix_of_mem_pySplitLines h2))

/-- C4: a build descriptor whose `FROM ... python ...` line comes before
any other keyword-matching `FROM` line detects as python in both variants:
`detect_language` returns `"python"`, and so does
`detect_language_from_repo` on any repository whose Dockerfile read yields
that text (the python keyword has top priority in both cascades). -/
theorem claim_C4 (d : String) (pre post : List (List Char)) (line : List Char)
    (hsplit : pySplitLines d.data = pre ++ line :: post)
    (hfrom : pyStartsWith "from".data (normLine line) = true)
    (hpy : pyIn "python".data (normLine line) = true)
    (hpre : ∀ l ∈ pre, pyStartsWith "from".data (normLine l) = true →
      keywordHit (normLine l) = none) :
    detect_language d = "python" ∧
      ∀ (r : Repo) (e : FileEntry), get_contents r "Dockerfile" = .ok e →
        e.content = d → detect_language_from_repo r = "python" := by
  constructor
  · rw [detect_language_eq_keyLoop]
    unfold fromLinesOf
    rw [hsplit, List.map_append, List.map_cons, List.filter_append, List.filter_cons,
      if_pos hfrom]
    rw [detectKeyLoop_append_none]
    · simp [detectKeyLoop, keywordHit_python hpy]
    · intro x hx
      obtain ⟨hxm, hxp⟩ := List.mem_filter.mp hx
      obtain ⟨l, hl, rfl⟩ := List.mem_map.mp hxm
      exact hpre l hl hxp
  · intro r e hget hcontent
    have hlineMem : line ∈ pySplitLines d.data := by
      rw [hsplit]
      exact List.mem_append_right _ (List.mem_cons_self _ _)
    have hinf : "python".data <:+: lowerL d.data :=
      infix_lower_of_infix_normLine (pyIn_iff.mp hpy) hlineMem
    have happ : detectFromDockerfileApp e.content = some "python" := by
      rw [hcontent]
      simp only [detectFromDockerfileApp]
      rw [if_pos (pyIn_iff.mpr hinf)]
    unfold detect_language_from_repo
    rw [hget]
    simp only [happ]

/-- C4 witness: a comment line, then `FROM python:3.9-slim`, then a
conflicting `FROM node:18`. -/
theorem claim_C4_witness :
    detect_language "# base\nFROM python:3.9-slim\nFROM node:18" = "python" ∧
      detect_language_from_repo
        ⟨[("Dockerfile", ⟨"# base\nFROM python:3.9-slim\nFROM node:18", 0⟩)], []⟩ = "python" := by
  have h := claim_C4 "# base\nFROM python:3.9-slim\nFROM node:18"
    ["# base".data] ["FROM node:18".data] "FROM python:3.9-slim".data
    (by decide) (by decide) (by decide) (by decide)
  exact ⟨h.1, h.2 _ ⟨"# base\nFROM python:3.9-slim\nFROM node:18", 0⟩ (by decide) rfl⟩

/-- C5 (counterexample): `FROM go:1.21` satisfies the claim's premise — its
only `FROM` line contains the substring `go` and none of the
higher-priority keywords — yet `detect_language` returns `"unknown"`, not
`"go"`: the line cascade tests only `golang`, never bare `go`. -/
theorem claim_C5_counterexample :
    pyStartsWith "from".data (normLine "FROM go:1.21".data) = true ∧
      pyIn "go".data (normLine "FROM go:1.21".data) = true ∧
      pyIn "python".data (normLine "FROM go:1.21".data) = false ∧
      pyIn "node".data (normLine "FROM go:1.21".data) = false ∧
      pyIn "openjdk".data (normLine "FROM go:1.21".data) = false ∧
      pyIn "maven".data (normLine "FROM go:1.21".data) = false ∧
      pyIn "gradle".data (normLine "FROM go:1.21".data) = false ∧
      detect_language "FROM go:1.21" = "unknown" := by
  decide

/-- C5 (amended): in the line-based detector only the substring `golang`
yields the go tag: a first keyword-matching `FROM` line containing
`golang` (and no higher-priority keyword) makes `detect_language` return
`"go"`. In the whole-text detector of the template-copy variant the bare
substring `go` does suffice, in the absence of the higher-priority
keywords of its own cascade. -/
theorem claim_C5_amended (d : String) (pre post : List (List Char)) (line : List Char)
    (hsplit : pySplitLines d.data = pre ++ line :: post)
    (hfrom : pyStartsWith "from".data (normLine line) = true)
    (hgo : pyIn "golang".data (normLine line) = true)
    (hnpy : pyIn "python".data (normLine line) = false)
    (hnnode : pyIn "node".data (normLine line) = false)
    (hnjdk : pyIn "openjdk".data (normLine line) = false)
    (hnmvn : pyIn "maven".data (normLine line) = false)
    (hngrd : pyIn "gradle".data (normLine line) = false)
    (hpre : ∀ l ∈ pre, pyStartsWith "from".data (normLine l) = true →
      keywordHit (normLine l) = none)
    (t : String)
    (hgo2 : pyIn "go".data (lowerL t.data) = true)
    (hnpy2 : pyIn "python".data (lowerL t.data) = false)
    (hnnode2 : pyIn "node".data (lowerL t.data) = false)
    (hnjava2 : pyIn "java".data (lowerL t.data) = false)
    (hnjdk2 : pyIn "openjdk".data (lowerL t.data) = false) :
    detect_language d = "go" ∧
      ∀ (r : Repo) (e : FileEntry), get_contents r "Dockerfile" = .ok e →
        e.content = t → detect_language_from_repo r = "go" := by
  constructor
  · rw [detect_language_eq_keyLoop]
    unfold fromLinesOf
    rw [hsplit, List.map_append, List.map_cons, List.filter_append, List.filter_cons,
      if_pos hfrom]
    rw [detectKeyLoop_append_none]
    · simp [detectKeyLoop, keywordHit, hgo, hnpy, hnnode, hnjdk, hnmvn, hngrd]
    · intro x hx
      obtain ⟨hxm, hxp⟩ := List.mem_filter.mp hx
      obtain ⟨l, hl, rfl⟩ := List.mem_map.mp hxm
      exact hpre l hl hxp
  · intro r e hget hcontent
    have happ : detectFromDockerfileApp e.content = some "go" := by
      rw [hcontent]
      simp [detectFromDockerfileApp, hgo2, hnpy2, hnnode2, hnjava2, hnjdk2]
    unfold detect_language_from_repo
    rw [hget]
    simp only [happ]

/-- C5 witness: `FROM golang:1.21` for the line detector and the same text
as Dockerfile content for the whole-text detector. -/
theorem claim_C5_witness :
    detect_language "FROM golang:1.21" = "go" ∧
      detect_language_from_repo ⟨[("Dockerfile", ⟨"FROM golang:1.21", 0⟩)], []⟩ = "go" := by
  have h := claim_C5_amended "FROM golang:1.21" [] [] "FROM golang:1.21".data
    (by decide) (by decide) (by decide) (by decide) (by decide) (by decide)
    (by decide) (by decide) (by decide) "FROM golang:1.21"
    (by decide) (by decide) (by decide) (by decide) (by decide)
  exact ⟨h.1, h.2 _ ⟨"FROM golang:1.21", 0⟩ (by decide) rfl⟩
